import Mathlib

/-!
Shallow embedding of the mcp-devops-hub repository (Python) in Lean 4.

Conventions used throughout this development:
* Python exceptions are modelled by the `Except PyErr` monad; a Python
  function that may raise returns `Except PyErr α`, a function that cannot
  raise returns a plain value.
* Remote services (Jira, GitHub, Jenkins HTTP endpoints and the Groq API)
  are opaque collaborators; each façade operation takes the outcome of the
  one underlying remote call as an explicit argument, exactly where the
  Python code performs that call.
* Python truthiness of optional strings (`if not settings.x`) is modelled
  by `truthy`: `None` and the empty string are falsy.
* `async`/`await` and thread offloading do not change the sequential data
  flow of any function modelled here, so the embedding is sequential.
-/

set_option autoImplicit false

/-- The Python exception values that appear in the modelled code paths. -/
inductive PyErr where
  /-- `jira.exceptions.JIRAError` carrying an HTTP status code and text. -/
  | jiraError (status : Nat) (text : String)
  /-- `github.GithubException` carrying an HTTP status code and data. -/
  | githubException (status : Nat) (data : String)
  /-- `httpx.HTTPStatusError` for a 4xx/5xx response. -/
  | httpStatusError (status : Nat) (text : String)
  /-- `ConnectionError` raised by the façades themselves. -/
  | connectionError (msg : String)
  /-- `AttributeError`, e.g. attribute access on `None`. -/
  | attributeError (msg : String)
  /-- `ValueError`, e.g. an invalid format specifier. -/
  | valueError (msg : String)
  /-- `ZeroDivisionError`. -/
  | zeroDivisionError
  /-- Any other exception, carrying `str(e)`. -/
  | otherError (msg : String)
  deriving Repr, DecidableEq

/-- `str(e)` for the modelled exceptions. -/
def PyErr.msg : PyErr → String
  | .jiraError status text => "JiraError HTTP " ++ toString status ++ ": " ++ text
  | .githubException status data => "GithubException " ++ toString status ++ " " ++ data
  | .httpStatusError status text => "HTTP status error " ++ toString status ++ ": " ++ text
  | .connectionError m => m
  | .attributeError m => m
  | .valueError m => m
  | .zeroDivisionError => "division by zero"
  | .otherError m => m

/-- Python truthiness of an optional string / SecretStr field:
`None` and the empty string are falsy, anything else is truthy. -/
def truthy : Option String → Bool
  | none => false
  | some s => s ≠ ""

/-- The environment-sourced configuration (`config.py`, class `Settings`).
Secrets are modelled as the underlying string. Fields not used by any
modelled code path (slack, teams) are omitted. -/
structure Settings where
  jira_url : Option String := none
  jira_username : Option String := none
  jira_api_token : Option String := none
  github_token : Option String := none
  github_base_url : Option String := none
  jenkins_url : Option String := none
  jenkins_username : Option String := none
  jenkins_token : Option String := none
  groq_api_key : Option String := none
  groq_model_name : String := "mixtral-8x7b-32768"
  groq_max_tokens : Nat := 32768
  groq_temperature : Rat := 7 / 10
  deriving Repr, DecidableEq

/-- The connection handle held by `JiraClient._client` when configured
(the third-party `JIRA` object). Only the session state needed by
`close()` is modelled. -/
structure JiraHandle where
  closed : Bool := false
  deriving Repr, DecidableEq

/-- The handle held by `GitHubClient._client` (the third-party `Github`
object; token-auth, no connection state to release). -/
structure GitHubHandle where
  authenticated_login : String := ""
  deriving Repr, DecidableEq

/-- The `httpx.AsyncClient` held by `JenkinsClient._client`. `aclose` on
an `httpx.AsyncClient` is guarded by its internal state flag, which is
what `closed` models. -/
structure HttpxSession where
  closed : Bool := false
  deriving Repr, DecidableEq

/-- `httpx.AsyncClient.aclose`: transitions to the closed state and
releases the transport only if not already closed. Returns the new
session and whether anything was released by this call. -/
def HttpxSession.aclose (s : HttpxSession) : HttpxSession × Bool :=
  if s.closed then (s, false) else ({ closed := true }, true)

/-- `clients/jira_client.py`, class `JiraClient`: `_client` is `None`
when disabled or when construction of the `JIRA` object failed. -/
structure JiraClient where
  client : Option JiraHandle
  deriving Repr, DecidableEq

/-- `clients/github_client.py`, class `GitHubClient`. -/
structure GitHubClient where
  client : Option GitHubHandle
  deriving Repr, DecidableEq

/-- `clients/jenkins_client.py`, class `JenkinsClient`. -/
structure JenkinsClient where
  client : Option HttpxSession
  base_url : Option String
  deriving Repr, DecidableEq

/-- `clients/groq_client.py`, class `GroqClient`: holds the `groq.Groq`
handle (modelled by the api key it was built from) and the configured
defaults. -/
structure GroqClient where
  api_key : String
  model : String
  max_tokens : Nat
  temperature : Rat
  deriving Repr, DecidableEq

/-- `JiraClient.__init__`: if any of url / username / token is falsy the
client is disabled (`_client = None`) and nothing is raised; otherwise
the `JIRA(...)` construction runs (its outcome is the argument `ext`)
and both `JIRAError` and any other exception are caught, leaving the
client disabled. Construction therefore never raises. -/
def JiraClient.init (s : Settings) (ext : Except PyErr JiraHandle) :
    Except PyErr JiraClient :=
  if ¬ (truthy s.jira_url ∧ truthy s.jira_username ∧ truthy s.jira_api_token) then
    .ok { client := none }
  else
    match ext with
    | .ok h => .ok { client := some h }
    | .error _ => .ok { client := none }

/-- `GitHubClient.__init__`: if the token is falsy the client is disabled;
otherwise `Github(...)` plus the `get_user()` connection test run (their
combined outcome is `ext`), with `GithubException` and any other
exception caught. Construction never raises. -/
def GitHubClient.init (s : Settings) (ext : Except PyErr GitHubHandle) :
    Except PyErr GitHubClient :=
  if ¬ truthy s.github_token then
    .ok { client := none }
  else
    match ext with
    | .ok h => .ok { client := some h }
    | .error _ => .ok { client := none }

/-- Python `str.rstrip` restricted to stripping trailing slash characters,
as used on `settings.jenkins_url`. -/
def rstripSlash (s : String) : String :=
  ⟨(s.data.reverse.dropWhile (fun c => c = '/')).reverse⟩

/-- `JenkinsClient.__init__`: if any of url / username / token is falsy
the client is disabled (both `_client` and `_base_url` set to `None`);
otherwise an `httpx.AsyncClient` is built locally (no network call, no
failure path). Construction never raises. -/
def JenkinsClient.init (s : Settings) : Except PyErr JenkinsClient :=
  if ¬ (truthy s.jenkins_url ∧ truthy s.jenkins_username ∧ truthy s.jenkins_token) then
    .ok { client := none, base_url := none }
  else
    .ok { client := some {}, base_url := (s.jenkins_url.map rstripSlash) }

/-- The message of the `AttributeError` raised by
`settings.groq_api_key.get_secret_value()` when the key is `None`. -/
def groqNoneKeyMsg : String :=
  "NoneType object has no attribute get_secret_value"

/-- `GroqClient.__init__`: unlike the other three façades there is no
configuration guard; `settings.groq_api_key.get_secret_value()` is called
unconditionally, so a missing (None) key raises `AttributeError` out of
the constructor. -/
def GroqClient.init (s : Settings) : Except PyErr GroqClient :=
  match s.groq_api_key with
  | none => .error (.attributeError groqNoneKeyMsg)
  | some k =>
      .ok { api_key := k, model := s.groq_model_name,
            max_tokens := s.groq_max_tokens, temperature := s.groq_temperature }

/-- A Jira issue as the modelled code paths observe it: the resource
handler reads `task.key`, `task.fields.summary`, `task.fields.status.name`,
`task.fields.assignee.displayName` and `task.fields.customfield_10026`
(story points), flattened here into one record. -/
structure Issue where
  key : String
  summary : String
  status : String
  assignee : Option String
  story_points : Option Int
  deriving Repr, DecidableEq

/-- A Jira sprint domain object (opaque to the modelled paths). -/
structure Sprint where
  id : Int
  name : String
  deriving Repr, DecidableEq

/-- A GitHub repository domain object (opaque to the modelled paths). -/
structure Repo where
  full_name : String
  deriving Repr, DecidableEq

/-- A GitHub contents response (file or directory listing), opaque here. -/
structure GhContent where
  path : String
  deriving Repr, DecidableEq

/-- Outcome of one HTTP round trip performed by `httpx`. -/
inductive HttpOutcome where
  /-- A response was received with this status code and JSON body. -/
  | resp (status : Nat) (body : String)
  /-- `httpx.RequestError`: the request could not be completed. -/
  | netError (msg : String)
  deriving Repr, DecidableEq

/-- HTTP 404, `utilities/constants.py` `HTTP_NOT_FOUND`. -/
def HTTP_NOT_FOUND : Nat := 404

/-- `JiraClient.get_sprint_tasks`: disabled client returns `[]` without
any remote call; otherwise the `search_issues` outcome is returned, and
every exception — `JIRAError` of any status, 404 included, and anything
else — is logged and re-raised. -/
def JiraClient.get_sprint_tasks (c : JiraClient)
    (remote : Except PyErr (List Issue)) : Except PyErr (List Issue) :=
  match c.client with
  | none => .ok []
  | some _ =>
    match remote with
    | .ok tasks => .ok tasks
    | .error e => .error e

/-- `JiraClient.get_sprint`: disabled client returns `None`; a `JIRAError`
with status 404 is converted to `None`; any other `JIRAError` and any
other exception is re-raised. -/
def JiraClient.get_sprint (c : JiraClient)
    (remote : Except PyErr Sprint) : Except PyErr (Option Sprint) :=
  match c.client with
  | none => .ok none
  | some _ =>
    match remote with
    | .ok s => .ok (some s)
    | .error (.jiraError status text) =>
        if status = HTTP_NOT_FOUND then .ok none
        else .error (.jiraError status text)
    | .error e => .error e

/-- `JiraClient.get_completed_sprints`: disabled client returns `[]`;
every exception from the `sprints` call is re-raised (no 404 special
case). -/
def JiraClient.get_completed_sprints (c : JiraClient)
    (remote : Except PyErr (List Sprint)) : Except PyErr (List Sprint) :=
  match c.client with
  | none => .ok []
  | some _ =>
    match remote with
    | .ok sprints => .ok sprints
    | .error e => .error e

/-- `GitHubClient.get_repo`: disabled client returns `None`; a
`GithubException` with status 404 becomes `None`; any other exception is
re-raised. -/
def GitHubClient.get_repo (c : GitHubClient)
    (remote : Except PyErr Repo) : Except PyErr (Option Repo) :=
  match c.client with
  | none => .ok none
  | some _ =>
    match remote with
    | .ok r => .ok (some r)
    | .error (.githubException status data) =>
        if status = HTTP_NOT_FOUND then .ok none
        else .error (.githubException status data)
    | .error e => .error e

/-- `GitHubClient.get_content`: first `get_repo` (its remote outcome is
`remoteRepo`); `None` repo short-circuits to `None`; then
`repo.get_contents(path)` (outcome `remoteContent`) with the same
404-to-`None`, otherwise-re-raise policy. -/
def GitHubClient.get_content (c : GitHubClient)
    (remoteRepo : Except PyErr Repo)
    (remoteContent : Except PyErr GhContent) : Except PyErr (Option GhContent) :=
  match GitHubClient.get_repo c remoteRepo with
  | .error e => .error e
  | .ok none => .ok none
  | .ok (some _) =>
    match remoteContent with
    | .ok ct => .ok (some ct)
    | .error (.githubException status data) =>
        if status = HTTP_NOT_FOUND then .ok none
        else .error (.githubException status data)
    | .error e => .error e

/-- `JenkinsClient._request`: raises `ConnectionError` when disabled;
`response.raise_for_status()` raises `httpx.HTTPStatusError` for a
4xx/5xx status, which the method catches and converts into a `None`
return value (for every such status, 404 and 500 alike);
`httpx.RequestError` is converted to a raised `ConnectionError`; a 2xx
response yields the JSON body. -/
def JenkinsClient.request (c : JenkinsClient)
    (remote : HttpOutcome) : Except PyErr (Option String) :=
  match c.client with
  | none => .error (.connectionError "Jenkins client is not initialized or configured.")
  | some _ =>
    match remote with
    | .resp status body =>
        if 400 ≤ status then .ok none
        else .ok (some body)
    | .netError msg =>
        .error (.connectionError ("Could not connect to Jenkins: " ++ msg))

/-- `JenkinsClient.get_build_info`: delegates to `_request` on the
job/build endpoint. -/
def JenkinsClient.get_build_info (c : JenkinsClient)
    (remote : HttpOutcome) : Except PyErr (Option String) :=
  JenkinsClient.request c remote

/-- `JenkinsClient.get_job_info`: delegates to `_request` on the job
endpoint. -/
def JenkinsClient.get_job_info (c : JenkinsClient)
    (remote : HttpOutcome) : Except PyErr (Option String) :=
  JenkinsClient.request c remote

/-- `JiraClient.close`: no-op on a disabled client; otherwise runs the
underlying session close, catching `AttributeError` and every other
exception, so it never raises. Returns the updated client and whether
this call released anything (the underlying `requests` session close is
itself idempotent). -/
def JiraClient.close (c : JiraClient) : JiraClient × Bool :=
  match c.client with
  | none => (c, false)
  | some h => ({ client := some { closed := true } }, !h.closed)

/-- `GitHubClient.close`: the body is `pass` (token auth holds no
connection); nothing changes and nothing is released. -/
def GitHubClient.close (c : GitHubClient) : GitHubClient × Bool :=
  (c, false)

/-- `JenkinsClient.close`: no-op when disabled, otherwise
`await self._client.aclose()`; the client reference is kept, so a second
call reaches `aclose` again, which is state-guarded. -/
def JenkinsClient.close (c : JenkinsClient) : JenkinsClient × Bool :=
  match c.client with
  | none => (c, false)
  | some s =>
      let r := s.aclose
      ({ c with client := some r.1 }, r.2)

/-- `clients/__init__.py`, dataclass `Clients`: the published bundle,
one optional façade per service. -/
structure Clients where
  jira : Option JiraClient := none
  github : Option GitHubClient := none
  jenkins : Option JenkinsClient := none
  groq : Option GroqClient := none
  deriving Repr, DecidableEq

/-- `Except.toOption`-style projection used by the startup phase. -/
def okToOption {α : Type} : Except PyErr α → Option α
  | .ok a => some a
  | .error _ => none

/-- Startup phase of `create_api_clients`: the four constructions run
concurrently and `asyncio.gather(..., return_exceptions=True)` captures
each outcome; a raised exception leaves that slot out of
`initialized_clients`, so the bundle slot defaults to `None`; a
successful construction (necessarily an instance of the right class)
fills its slot. -/
def createApiClientsStartup
    (rj : Except PyErr JiraClient) (rg : Except PyErr GitHubClient)
    (rk : Except PyErr JenkinsClient) (rq : Except PyErr GroqClient) : Clients :=
  { jira := okToOption rj, github := okToOption rg,
    jenkins := okToOption rk, groq := okToOption rq }

/-- Number of construction outcomes that succeeded. -/
def okCount (rj : Except PyErr JiraClient) (rg : Except PyErr GitHubClient)
    (rk : Except PyErr JenkinsClient) (rq : Except PyErr GroqClient) : Nat :=
  (if (okToOption rj).isSome then 1 else 0)
    + (if (okToOption rg).isSome then 1 else 0)
    + (if (okToOption rk).isSome then 1 else 0)
    + (if (okToOption rq).isSome then 1 else 0)

/-- Names of the non-`None` slots of a published bundle. -/
def nonNoneServices (c : Clients) : List String :=
  (if c.jira.isSome then ["jira"] else [])
    ++ (if c.github.isSome then ["github"] else [])
    ++ (if c.jenkins.isSome then ["jenkins"] else [])
    ++ (if c.groq.isSome then ["groq"] else [])

/-- Number of non-`None` slots of a published bundle. -/
def clientCount (c : Clients) : Nat := (nonNoneServices c).length

/-- Shutdown phase of `create_api_clients` (the `finally` block): a
`close()` task is scheduled for `clients.jira`, `clients.github` and
`clients.jenkins` when non-`None`; the comment in the source notes that
Groq is deliberately not closed (and `GroqClient` defines no `close`
method at all). Returns the names whose `close()` is called. -/
def createApiClientsShutdownTargets (c : Clients) : List String :=
  (if c.jira.isSome then ["jira"] else [])
    ++ (if c.github.isSome then ["github"] else [])
    ++ (if c.jenkins.isSome then ["jenkins"] else [])

/-- A role-tagged message in the Groq chat format (a dict with `role`
and `content`). -/
structure GroqMessage where
  role : String
  content : String
  deriving Repr, DecidableEq

/-- `mcp.types.SamplingMessage` as consumed by the modelled paths. -/
structure SamplingMessage where
  role : String
  content : String
  deriving Repr, DecidableEq

/-- `mcp.types.CreateMessageRequestParams`: the messages plus optional
temperature and max_tokens. -/
structure CreateMessageRequestParams where
  messages : List SamplingMessage
  temperature : Option Rat := none
  max_tokens : Option Nat := none
  deriving Repr, DecidableEq

/-- The sampling response object built by `handle_sampling_message`.
Its `finish_reason` field is optional with pydantic default `None`; the
success branch of the callback constructs it from `content` alone,
leaving `finish_reason` at that default, while the error branch passes
`finish_reason="error"` explicitly. -/
structure CreateMessageResponse where
  content : String
  finish_reason : Option String := none
  deriving Repr, DecidableEq

/-- Python `x or default` for an optional rational (float) argument:
`None` and `0.0` are falsy, so both select the default. -/
def pyOrRat (x : Option Rat) (d : Rat) : Rat :=
  match x with
  | none => d
  | some v => if v = 0 then d else v

/-- Python `x or default` for an optional integer argument: `None` and
`0` are falsy, so both select the default. -/
def pyOrNat (x : Option Nat) (d : Nat) : Nat :=
  match x with
  | none => d
  | some v => if v = 0 then d else v

/-- The Groq chat-completions endpoint as the façade sees it: model name,
messages, effective temperature and max tokens in, generated text out or
an exception. -/
def GroqApi : Type := String → List GroqMessage → Rat → Nat → Except PyErr String

/-- `GroqClient.generate_completion`: resolves the temperature and
max_tokens overrides by Python truthiness (`temperature or
self.temperature`, `max_tokens or self.max_tokens`), performs the one
remote call, and re-raises any exception after logging it. -/
def GroqClient.generate_completion (gc : GroqClient)
    (messages : List GroqMessage)
    (temperature : Option Rat) (max_tokens : Option Nat)
    (api : GroqApi) : Except PyErr String :=
  api gc.model messages (pyOrRat temperature gc.temperature)
    (pyOrNat max_tokens gc.max_tokens)

/-- `server.py`, `handle_sampling_message`: builds a fresh `GroqClient`
(which may itself raise when the key is missing), converts the sampling
messages to Groq format, resolves `params.temperature or 0.7` and
`params.max_tokens or 1000`, performs the completion, and returns a
response built from the content alone; the enclosing
`except Exception` converts every raised exception into a response with
`finish_reason="error"` and the stringified exception in the content,
so the callback itself never raises. -/
def handle_sampling_message (s : Settings)
    (params : CreateMessageRequestParams) (api : GroqApi) :
    CreateMessageResponse :=
  let attempt : Except PyErr CreateMessageResponse :=
    match GroqClient.init s with
    | .error e => .error e
    | .ok gc =>
      let groq_messages := params.messages.map
        (fun m => { role := m.role, content := m.content : GroqMessage })
      match GroqClient.generate_completion gc groq_messages
        (some (pyOrRat params.temperature (7 / 10)))
        (some (pyOrNat params.max_tokens 1000)) api with
      | .error e => .error e
      | .ok completion => .ok { content := completion }
  match attempt with
  | .ok r => r
  | .error e =>
      { content := "Error generating response: " ++ e.msg,
        finish_reason := some "error" }

/-- An exact model of the Python float values flowing through the
report and code-quality arithmetic: a fraction kept unreduced (no gcd),
so that every operation on it evaluates by plain integer arithmetic.
All constructions in this development keep `den` positive. -/
structure PyFloat where
  num : Int
  den : Int
  deriving Repr, DecidableEq

/-- Python true division on integers (`a / b`), raising
`ZeroDivisionError` when the denominator is zero and producing the exact
quotient otherwise. -/
def pyDiv (a b : Int) : Except PyErr PyFloat :=
  if b = 0 then .error .zeroDivisionError
  else if b < 0 then .ok { num := -a, den := -b }
  else .ok { num := a, den := b }

/-- Multiply a Python float by an integer literal (`x * 100`). -/
def PyFloat.mulInt (x : PyFloat) (k : Int) : PyFloat :=
  { num := x.num * k, den := x.den }

/-- `x < p / q` for a Python float `x` and a literal fraction with
`q > 0`, by cross multiplication (`den` is positive by construction). -/
def PyFloat.ltFrac (x : PyFloat) (p q : Int) : Bool :=
  x.num * q < p * x.den

/-- Round to the nearest integer, ties to even (CPython float formatting
rounding, restricted to the exactly-representable values used here).
`den` is positive by construction. -/
def roundHalfEven (x : PyFloat) : Int :=
  let f : Int := Int.fdiv x.num x.den
  let r : Int := x.num - f * x.den
  if 2 * r < x.den then f
  else if x.den < 2 * r then f + 1
  else if f % 2 = 0 then f else f + 1

/-- Render a nonnegative tenth-scaled integer with one decimal place. -/
def fixed1Core (m : Nat) : String :=
  toString (m / 10) ++ "." ++ toString (m % 10)

/-- Python `format(x, ".1f")`: one decimal place. -/
def fixed1 (x : PyFloat) : String :=
  let n : Int := roundHalfEven (x.mulInt 10)
  if n < 0 then "-" ++ fixed1Core (-n).toNat else fixed1Core n.toNat

/-- CPython `format(value, spec)` for a float value, restricted to the
format specifiers occurring in the source: a `".1f"` spec formats with
one decimal place, and any other spec — in particular the literal spec
`".1f if total_tasks > 0 else 0"` produced by the report f-string, where
the conditional sits inside the format-spec position — raises
`ValueError`. -/
def pyFormat (spec : String) (x : PyFloat) : Except PyErr String :=
  if spec = ".1f" then .ok (fixed1 x)
  else .error (.valueError "Invalid format specifier")

/-- The literal format spec that `generate_sprint_report` applies to the
completed-tasks percentage: in the source the conditional expression is
written after the `:` of the f-string replacement field, so the whole
text is passed to `format` as the spec. -/
def reportTasksPercentSpec : String := ".1f if total_tasks > 0 else 0"

/-- The literal format spec applied to the completed-points percentage. -/
def reportPointsPercentSpec : String := ".1f if total_points > 0 else 0"

/-- The JSON payload produced by the `get_sprint_tasks` resource handler:
either an error object or the total/tasks object. Handlers and tools
branch on the presence of the `"error"` key, which is the discriminator
here. -/
inductive TasksJson where
  /-- The handler's `except` branch payload: an object with an `"error"`
  key holding `str(e)`. -/
  | errObj (msg : String)
  /-- The success payload: total count and the projected task rows. -/
  | dataObj (tasks : List Issue)
  deriving Repr, DecidableEq

/-- Body of the `get_sprint_tasks` resource handler (the `try` suite):
reading `.jira` from the bundle yields `None` when the client is absent,
and the subsequent method call on `None` raises `AttributeError`;
otherwise the façade call runs and its task list is projected into the
JSON rows. -/
def getSprintTasksResourceBody (jc : Option JiraClient)
    (remote : Except PyErr (List Issue)) : Except PyErr TasksJson := do
  let c ← match jc with
    | none => Except.error (PyErr.attributeError
        "NoneType object has no attribute get_sprint_tasks")
    | some c => pure c
  let tasks ← JiraClient.get_sprint_tasks c remote
  pure (.dataObj tasks)

/-- The `get_sprint_tasks` resource handler: the `except Exception`
clause converts every raised exception into the error JSON object, so
the handler always returns a payload and never raises. -/
def getSprintTasksResource (jc : Option JiraClient)
    (remote : Except PyErr (List Issue)) : TasksJson :=
  match getSprintTasksResourceBody jc remote with
  | .ok payload => payload
  | .error e => .errObj e.msg

/-- Story points of a task row with Python `or 0` defaulting. -/
def pointsOrZero (t : Issue) : Int :=
  match t.story_points with
  | none => 0
  | some p => p

/-- `sum(task.story_points or 0 for task in tasks)`. -/
def sumPoints (tasks : List Issue) : Int :=
  tasks.foldl (fun acc t => acc + pointsOrZero t) 0

/-- `sum(1 for task in tasks if task.status == "Done")`. -/
def countDone (tasks : List Issue) : Int :=
  tasks.foldl (fun acc t => if t.status = "Done" then acc + 1 else acc) 0

/-- `sum(task.story_points or 0 for task in tasks if status == "Done")`. -/
def sumPointsDone (tasks : List Issue) : Int :=
  tasks.foldl
    (fun acc t => if t.status = "Done" then acc + pointsOrZero t else acc) 0

/-- Insert-or-bump for the insertion-ordered status count dictionary. -/
def bumpStatus (acc : List (String × Nat)) (st : String) : List (String × Nat) :=
  match acc with
  | [] => [(st, 1)]
  | (s, n) :: rest =>
      if s = st then (s, n + 1) :: rest else (s, n) :: bumpStatus rest st

/-- `status_counts` built by iterating the tasks in order. -/
def statusCounts (tasks : List Issue) : List (String × Nat) :=
  tasks.foldl (fun acc t => bumpStatus acc t.status) []

/-- `"\n".join(lines)`. -/
def joinLines (lines : List String) : String :=
  String.intercalate "\n" lines

/-- `server.py`, tool `generate_sprint_report`, transcribed statement by
statement. The tasks JSON comes from the resource handler; an error
payload returns early with an error report string (a normal return, not
a raise). Otherwise the statistics are computed, and the report list is
built; its completed-tasks element evaluates
`completed_tasks/total_tasks*100` (raising `ZeroDivisionError` when the
sprint is empty) and then formats it with the literal spec
`".1f if total_tasks > 0 else 0"`, which `format` rejects with
`ValueError`. The enclosing `except Exception` converts any raised
exception into `"Error generating report: " ++ str(e)`. -/
def generate_sprint_report (project_key : String) (sprint_id : Int)
    (tasksJson : TasksJson) : String :=
  let attempt : Except PyErr String := do
    match tasksJson with
    | .errObj msg => pure ("Error generating report: " ++ msg)
    | .dataObj tasks =>
      let total_tasks : Int := tasks.length
      let completed_tasks : Int := countDone tasks
      let total_points : Int := sumPoints tasks
      let completed_points : Int := sumPointsDone tasks
      let r1 ← pyDiv completed_tasks total_tasks
      let p1 ← pyFormat reportTasksPercentSpec (r1.mulInt 100)
      let r2 ← pyDiv completed_points total_points
      let p2 ← pyFormat reportPointsPercentSpec (r2.mulInt 100)
      let report : List String :=
        [ "Sprint Report for " ++ project_key ++ " Sprint " ++ toString sprint_id,
          String.mk (List.replicate 50 '='),
          "Total Tasks: " ++ toString total_tasks,
          "Completed Tasks: " ++ toString completed_tasks ++ " (" ++ p1 ++ "%)",
          "Total Story Points: " ++ toString total_points,
          "Completed Points: " ++ toString completed_points ++ " (" ++ p2 ++ "%)",
          "\nTask Breakdown by Status:" ]
        ++ (statusCounts tasks).map
            (fun sc => "- " ++ sc.1 ++ ": " ++ toString sc.2)
      pure (joinLines report)
  match attempt with
  | .ok s => s
  | .error e => "Error generating report: " ++ e.msg

/-- Modelled from the spec: the intended percentage display of the
sprint report ("display one decimal place; show 0.0% when the
denominator is zero"), replacing the source's broken format-spec
expression, which is the one construct the spec directs to be specified
by intent rather than by the literal source text. -/
def pctDisplayIntended (num denom : Int) : String :=
  if 0 < denom then fixed1 { num := num * 100, den := denom } else "0.0"

/-- Modelled from the spec: the sprint report lines as the spec intends
them — identical statistics to `generate_sprint_report`, with the two
percentages rendered by `pctDisplayIntended`. -/
def generateSprintReportIntendedLines (project_key : String)
    (sprint_id : Int) (tasks : List Issue) : List String :=
  let total_tasks : Int := tasks.length
  let completed_tasks : Int := countDone tasks
  let total_points : Int := sumPoints tasks
  let completed_points : Int := sumPointsDone tasks
  [ "Sprint Report for " ++ project_key ++ " Sprint " ++ toString sprint_id,
    String.mk (List.replicate 50 '='),
    "Total Tasks: " ++ toString total_tasks,
    "Completed Tasks: " ++ toString completed_tasks ++ " ("
      ++ pctDisplayIntended completed_tasks total_tasks ++ "%)",
    "Total Story Points: " ++ toString total_points,
    "Completed Points: " ++ toString completed_points ++ " ("
      ++ pctDisplayIntended completed_points total_points ++ "%)",
    "\nTask Breakdown by Status:" ]
  ++ (statusCounts tasks).map (fun sc => "- " ++ sc.1 ++ ": " ++ toString sc.2)

/-- The JSON payload produced by `_get_github_path_content`: an error
object, a decoded file, or a directory listing; tools branch on the
`"error"` key and the `"type"` field. -/
inductive ContentJson where
  /-- An object carrying an `"error"` key. -/
  | errObj (msg : String)
  /-- A file: its path and b64-decoded text content. -/
  | fileObj (path : String) (content : String)
  /-- A directory: its path and entry names. -/
  | dirObj (path : String) (entries : List String)
  deriving Repr, DecidableEq

/-- `line.strip()` — Python strip of surrounding whitespace. -/
def pyStrip (l : String) : String := l.trim

/-- A line that counts as code: nonempty after strip and not starting
with a `#`. -/
def isCodeLine (l : String) : Bool :=
  (pyStrip l ≠ "") && !((pyStrip l).startsWith "#")

/-- A line that counts as a comment: starts with `#` after strip. -/
def isCommentLine (l : String) : Bool :=
  (pyStrip l).startsWith "#"

/-- Python `kw in line` substring test, via `splitOn`. -/
def containsKw (l kw : String) : Bool :=
  2 ≤ (l.splitOn kw).length

/-- A line contributing to the simple complexity count. -/
def isComplexityLine (l : String) : Bool :=
  ["if", "for", "while", "except", "def", "class"].any (containsKw l)

/-- Body (the `try` suite) of the `assess_code_quality` tool: an error
payload returns the error string early; a file is measured line by line
(`code.split("\n")` always yields at least one element, so the
`comment_lines/total_lines` divisions cannot actually divide by zero,
but they are embedded as Python divisions all the same); a directory
gets the summary string. The thresholds 0.1 and 10 are
`MIN_COMMENT_RATIO` and `MAX_COMPLEXITY` from `utilities/constants.py`. -/
def assess_code_quality_body (path : String) (cd : ContentJson) :
    Except PyErr String := do
  match cd with
  | .errObj msg => pure ("Error assessing code quality: " ++ msg)
  | .fileObj _ code =>
      let lines := code.splitOn "\n"
      let total_lines : Int := lines.length
      let code_lines : Int := (lines.filter isCodeLine).length
      let comment_lines : Int := (lines.filter isCommentLine).length
      let complexity : Int := (lines.filter isComplexityLine).length
      let ratioPct ← pyDiv comment_lines total_lines
      let ratioStr ← pyFormat ".1f" (ratioPct.mulInt 100)
      let ratio ← pyDiv comment_lines total_lines
      pure ("Code Quality Assessment for " ++ path ++ "\n"
        ++ "================================\n"
        ++ "Total Lines: " ++ toString total_lines ++ "\n"
        ++ "Lines of Code: " ++ toString code_lines ++ "\n"
        ++ "Comment Lines: " ++ toString comment_lines ++ "\n"
        ++ "Comment Ratio: " ++ ratioStr ++ "%\n"
        ++ "Cyclomatic Complexity: " ++ toString complexity ++ "\n"
        ++ "\nRecommendations:\n"
        ++ "- " ++ (if ratio.ltFrac 1 10 then "Add more comments"
                    else "Comment ratio is good") ++ "\n"
        ++ "- " ++ (if 10 < complexity then "Consider breaking down complex logic"
                    else "Complexity is acceptable"))
  | .dirObj _ entries =>
      pure ("Directory Summary for " ++ path ++ "\n"
        ++ "Total files: " ++ toString entries.length ++ "\n"
        ++ "Use specific file paths for detailed analysis")

/-- The `assess_code_quality` tool: the `except Exception` clause
converts every raised exception into the error string, so the tool
always returns a string. -/
def assess_code_quality (path : String) (cd : ContentJson) : String :=
  match assess_code_quality_body path cd with
  | .ok s => s
  | .error e => "Error assessing code quality: " ++ e.msg

/-- The sampling entry point the `generate_ai_insights` tool calls
(`mcp.sample_from_llm`): messages, temperature and max_tokens in,
response or exception out. -/
def SampleFn : Type :=
  List SamplingMessage → Rat → Nat → Except PyErr CreateMessageResponse

/-- `server.py`, tool `generate_ai_insights`: builds the system and user
sampling messages, performs the sampling call, and returns its content;
the `except Exception` clause converts every raised exception into the
error string, so the tool always returns a string. -/
def generate_ai_insights (context question : String)
    (sample : SampleFn) : String :=
  let system_message : SamplingMessage :=
    { role := "system",
      content := "You are an AI assistant specialized in software development and DevOps. Analyze the provided context and answer the question with detailed insights." }
  let user_message : SamplingMessage :=
    { role := "user",
      content := "Context:\n" ++ context ++ "\n\nQuestion: " ++ question }
  match sample [system_message, user_message] (3 / 10) 1500 with
  | .ok response => response.content
  | .error e => "Error generating insights: " ++ e.msg

/-- A configured Jira façade with an open session, used as a concrete
test fixture. -/
def jiraConfigured : JiraClient := { client := some { closed := false } }

/-- A configured GitHub façade fixture. -/
def githubConfigured : GitHubClient :=
  { client := some { authenticated_login := "test-user" } }

/-- A configured Jenkins façade with an open httpx session fixture. -/
def jenkinsConfigured : JenkinsClient :=
  { client := some { closed := false }, base_url := some "http://jenkins" }

/-- A constructed Groq façade fixture. -/
def groqConfigured : GroqClient :=
  { api_key := "gsk-test", model := "mixtral-8x7b-32768",
    max_tokens := 32768, temperature := 7 / 10 }

/-- A `Settings` value with every service field absent — the default
environment (`config.py` defaults). -/
def emptySettings : Settings := {}

/-- A `Settings` value with only the Groq key present. -/
def groqOnlySettings : Settings := { groq_api_key := some "gsk-test" }

/-- The three-issue sprint of the specified end-to-end scenario: two
Done issues with story points 3 and 5 and one In Progress issue with
story points 2. -/
def scenarioIssues : List Issue :=
  [ { key := "TEST-1", summary := "First task", status := "Done",
      assignee := none, story_points := some 3 },
    { key := "TEST-2", summary := "Second task", status := "Done",
      assignee := none, story_points := some 5 },
    { key := "TEST-3", summary := "Third task", status := "In Progress",
      assignee := none, story_points := some 2 } ]

/-- C1 (amended): for every startup outcome of the four façade
constructions, the published bundle has exactly as many non-None entries
as constructions that did not raise (N − k for k failures), and at
shutdown `close()` is called on exactly the non-None entries other than
`groq` — the groq slot is never closed, because the shutdown block only
schedules close tasks for jira, github and jenkins (and `GroqClient`
defines no `close` method). -/
theorem create_api_clients_lifecycle_amended
    (rj : Except PyErr JiraClient) (rg : Except PyErr GitHubClient)
    (rk : Except PyErr JenkinsClient) (rq : Except PyErr GroqClient) :
    clientCount (createApiClientsStartup rj rg rk rq) = okCount rj rg rk rq
    ∧ createApiClientsShutdownTargets (createApiClientsStartup rj rg rk rq)
      = (nonNoneServices (createApiClientsStartup rj rg rk rq)).filter
          (fun n => n != "groq") := by
  cases rj <;> cases rg <;> cases rk <;> cases rq <;> exact ⟨rfl, rfl⟩

/-- C1 counterexample: when all four constructions succeed (k = 0), the
bundle has 4 non-None entries but shutdown does not call `close()` on
the groq entry, so `close()` is not called on exactly the non-None
entries, contrary to the claim. -/
theorem create_api_clients_close_counterexample :
    clientCount (createApiClientsStartup (.ok jiraConfigured) (.ok githubConfigured)
        (.ok jenkinsConfigured) (.ok groqConfigured)) = 4
    ∧ "groq" ∈ nonNoneServices (createApiClientsStartup (.ok jiraConfigured)
        (.ok githubConfigured) (.ok jenkinsConfigured) (.ok groqConfigured))
    ∧ "groq" ∉ createApiClientsShutdownTargets (createApiClientsStartup
        (.ok jiraConfigured) (.ok githubConfigured) (.ok jenkinsConfigured)
        (.ok groqConfigured)) := by
  refine ⟨rfl, ?_, ?_⟩ <;> decide

/-- C2 (amended): for the jira, github and jenkins façades, any
configuration with a missing (falsy) required field yields a disabled
façade (internal handle `None`) without raising, whatever the outcome of
the never-reached remote construction; for the groq façade a missing
API key instead makes construction raise `AttributeError`, because its
`__init__` dereferences the key without a configuration guard. -/
theorem facade_init_missing_config_amended (s : Settings)
    (extJ : Except PyErr JiraHandle) (extG : Except PyErr GitHubHandle) :
    (¬ (truthy s.jira_url ∧ truthy s.jira_username ∧ truthy s.jira_api_token) →
      JiraClient.init s extJ = .ok { client := none })
    ∧ (¬ truthy s.github_token →
      GitHubClient.init s extG = .ok { client := none })
    ∧ (¬ (truthy s.jenkins_url ∧ truthy s.jenkins_username ∧ truthy s.jenkins_token) →
      JenkinsClient.init s = .ok { client := none, base_url := none })
    ∧ (s.groq_api_key = none →
      GroqClient.init s = .error (.attributeError groqNoneKeyMsg)) := by
  refine ⟨fun h => ?_, fun h => ?_, fun h => ?_, fun h => ?_⟩
  · simp only [JiraClient.init, if_pos h]
  · simp only [GitHubClient.init, if_pos h]
  · simp only [JenkinsClient.init, if_pos h]
  · simp only [GroqClient.init, h]

/-- C2 witness: the default (all-absent) configuration disables the
jira, github and jenkins façades without raising and makes the groq
construction raise. -/
theorem facade_init_missing_config_amended_witness :
    JiraClient.init emptySettings (.error (.otherError "down")) = .ok { client := none }
    ∧ GitHubClient.init emptySettings (.error (.otherError "down")) = .ok { client := none }
    ∧ JenkinsClient.init emptySettings = .ok { client := none, base_url := none }
    ∧ GroqClient.init emptySettings = .error (.attributeError groqNoneKeyMsg) := by
  obtain ⟨h1, h2, h3, h4⟩ := facade_init_missing_config_amended emptySettings
    (.error (.otherError "down")) (.error (.otherError "down"))
  exact ⟨h1 (by decide), h2 (by decide), h3 (by decide), h4 rfl⟩

/-- C2 counterexample: with the groq API key absent, façade construction
for the groq service raises `AttributeError` instead of yielding a
disabled façade, refuting the claim for that service. -/
theorem groq_init_missing_key_counterexample :
    GroqClient.init emptySettings = .error (.attributeError groqNoneKeyMsg) := rfl

/-- C3 (amended): on a configured façade, a remote failure other than a
404 is propagated as a raised error by the jira operations (get_sprint,
get_sprint_tasks, get_completed_sprints) and the github operations
(get_repo, get_content), and by the jenkins façade for network-level
failures (re-raised as `ConnectionError`); but the jenkins `_request`
converts every HTTP status error — any 4xx/5xx, not only 404 — into a
`None` success result instead of raising. -/
theorem remote_error_propagation_amended
    (jc : JiraClient) (gh : GitHubClient) (kc : JenkinsClient)
    (st : Nat) (tx : String)
    (hj : jc.client.isSome = true) (hg : gh.client.isSome = true)
    (hk : kc.client.isSome = true) (hst : st ≠ 404) :
    JiraClient.get_sprint jc (.error (.jiraError st tx)) = .error (.jiraError st tx)
    ∧ JiraClient.get_sprint_tasks jc (.error (.jiraError st tx))
      = .error (.jiraError st tx)
    ∧ JiraClient.get_completed_sprints jc (.error (.jiraError st tx))
      = .error (.jiraError st tx)
    ∧ GitHubClient.get_repo gh (.error (.githubException st tx))
      = .error (.githubException st tx)
    ∧ GitHubClient.get_content gh (.ok { full_name := "owner/repo" })
        (.error (.githubException st tx)) = .error (.githubException st tx)
    ∧ (∀ msg, JenkinsClient.request kc (.netError msg)
      = .error (.connectionError ("Could not connect to Jenkins: " ++ msg)))
    ∧ (400 ≤ st → JenkinsClient.request kc (.resp st tx) = .ok none) := by
  obtain ⟨jcc⟩ := jc
  obtain ⟨ghc⟩ := gh
  obtain ⟨kcc, kbu⟩ := kc
  cases jcc with
  | none => simp at hj
  | some jh =>
    cases ghc with
    | none => simp at hg
    | some gh2 =>
      cases kcc with
      | none => simp at hk
      | some kh =>
        refine ⟨?_, rfl, rfl, ?_, ?_, fun msg => rfl, fun h400 => ?_⟩
        · simp [JiraClient.get_sprint, HTTP_NOT_FOUND, hst]
        · simp [GitHubClient.get_repo, HTTP_NOT_FOUND, hst]
        · simp [GitHubClient.get_content, GitHubClient.get_repo, HTTP_NOT_FOUND, hst]
        · simp [JenkinsClient.request, h400]

/-- C3 witness: a configured jira façade propagates a 500 `JIRAError`,
a configured github façade propagates a 500 `GithubException`, a
configured jenkins façade raises `ConnectionError` on a network failure
and converts a 500 response to `None`. -/
theorem remote_error_propagation_amended_witness :
    JiraClient.get_sprint jiraConfigured (.error (.jiraError 500 "ISE"))
      = .error (.jiraError 500 "ISE")
    ∧ GitHubClient.get_repo githubConfigured (.error (.githubException 500 "ISE"))
      = .error (.githubException 500 "ISE")
    ∧ JenkinsClient.request jenkinsConfigured (.netError "down")
      = .error (.connectionError "Could not connect to Jenkins: down")
    ∧ JenkinsClient.request jenkinsConfigured (.resp 500 "ISE") = .ok none := by
  obtain ⟨a, -, -, d, -, f, g⟩ := remote_error_propagation_amended jiraConfigured
    githubConfigured jenkinsConfigured 500 "ISE" rfl rfl rfl (by decide)
  exact ⟨a, d, f "down", g (by decide)⟩

/-- C3 counterexample: the configured jenkins façade, on a remote
answering 500 (a remote failure other than 404), returns a `None`
success result instead of raising, refuting the claim that such
failures are never converted into `None` by the façade. -/
theorem jenkins_status_error_swallowed_counterexample :
    JenkinsClient.request jenkinsConfigured (.resp 500 "Internal Server Error")
      = .ok none := rfl

/-- C4 (confirmed): whenever the Groq key is configured and the
completion provider raises, the sampling callback returns (rather than
raises) a response whose finish_reason is "error" and whose content is
the error prefix followed by the provider failure reason; the callback
is a total function, so no exception escapes it. -/
theorem sampling_provider_failure_returns_error_response
    (s : Settings) (k : String) (params : CreateMessageRequestParams)
    (api : GroqApi) (e : PyErr)
    (hkey : s.groq_api_key = some k)
    (hapi : ∀ m msgs t mt, api m msgs t mt = .error e) :
    handle_sampling_message s params api
      = { content := "Error generating response: " ++ e.msg,
          finish_reason := some "error" } := by
  simp [handle_sampling_message, GroqClient.init, hkey,
    GroqClient.generate_completion, hapi]

/-- C4 witness: a configured key with a provider that raises a generic
exception yields the error response. -/
theorem sampling_provider_failure_returns_error_response_witness :
    handle_sampling_message groqOnlySettings
      { messages := [{ role := "user", content := "hi" }] }
      (fun _ _ _ _ => .error (.otherError "boom"))
      = { content := "Error generating response: boom",
          finish_reason := some "error" } :=
  sampling_provider_failure_returns_error_response groqOnlySettings "gsk-test"
    { messages := [{ role := "user", content := "hi" }] }
    (fun _ _ _ _ => .error (.otherError "boom")) (.otherError "boom")
    rfl (fun _ _ _ _ => rfl)

/-- C5 (amended): whenever the Groq key is configured and the provider
succeeds with generated text, the sampling callback returns a response
whose content is exactly that text — but the callback builds the success
response from the content alone, leaving finish_reason at its `None`
field default rather than setting it to "stop"; only the error branch
sets a finish_reason. -/
theorem sampling_success_response_amended
    (s : Settings) (k txt : String) (params : CreateMessageRequestParams)
    (api : GroqApi)
    (hkey : s.groq_api_key = some k)
    (hapi : ∀ m msgs t mt, api m msgs t mt = .ok txt) :
    handle_sampling_message s params api
      = { content := txt, finish_reason := none } := by
  simp [handle_sampling_message, GroqClient.init, hkey,
    GroqClient.generate_completion, hapi]

/-- C5 witness: a configured key with a provider returning "All good"
yields exactly that content and no finish_reason. -/
theorem sampling_success_response_amended_witness :
    handle_sampling_message groqOnlySettings
      { messages := [{ role := "user", content := "hi" }] }
      (fun _ _ _ _ => .ok "All good")
      = { content := "All good", finish_reason := none } :=
  sampling_success_response_amended groqOnlySettings "gsk-test" "All good"
    { messages := [{ role := "user", content := "hi" }] }
    (fun _ _ _ _ => .ok "All good") rfl (fun _ _ _ _ => rfl)

/-- C5 counterexample: on a concrete successful sampling round trip the
returned response's finish_reason is not "stop" (it is `None`, the
unset default), refuting the claim that the success path sets
finish_reason to "stop". -/
theorem sampling_success_no_stop_counterexample :
    (handle_sampling_message groqOnlySettings
      { messages := [{ role := "user", content := "hi" }] }
      (fun _ _ _ _ => .ok "All good")).content = "All good"
    ∧ (handle_sampling_message groqOnlySettings
      { messages := [{ role := "user", content := "hi" }] }
      (fun _ _ _ _ => .ok "All good")).finish_reason ≠ some "stop" := by
  refine ⟨rfl, ?_⟩
  intro h
  simp [handle_sampling_message, GroqClient.init, groqOnlySettings,
    GroqClient.generate_completion] at h

/-- C6 (code bug): on the specified three-issue sprint (two Done issues
with story points 3 and 5, one In Progress with 2), the tool as written
returns the error string produced by the invalid f-string format
specifier — the conditional expression sits inside the format-spec
position, so `format` raises `ValueError` and the handler catches it —
whereas the intended report (spec formatting: one decimal place, 0.0%
for a zero denominator) contains exactly the claimed lines. -/
theorem sprint_report_scenario_code_bug :
    generate_sprint_report "TEST" 1
      (getSprintTasksResource (some jiraConfigured) (.ok scenarioIssues))
      = "Error generating report: Invalid format specifier"
    ∧ "Total Tasks: 3" ∈ generateSprintReportIntendedLines "TEST" 1 scenarioIssues
    ∧ "Completed Tasks: 2 (66.7%)"
      ∈ generateSprintReportIntendedLines "TEST" 1 scenarioIssues
    ∧ "Total Story Points: 10"
      ∈ generateSprintReportIntendedLines "TEST" 1 scenarioIssues
    ∧ "Completed Points: 8 (80.0%)"
      ∈ generateSprintReportIntendedLines "TEST" 1 scenarioIssues := by
  refine ⟨rfl, ?_, ?_, ?_, ?_⟩ <;> decide

/-- C7 (amended): on a configured façade with the remote answering 404,
`get_sprint` (jira), `get_repo` and `get_content` (github) return `None`
without raising, and the jenkins `_request` returns `None`; but the jira
list operations `get_sprint_tasks` and `get_completed_sprints` have no
404 special case and re-raise the `JIRAError` instead of returning the
empty collection. -/
theorem not_found_handling_amended
    (jc : JiraClient) (gh : GitHubClient) (kc : JenkinsClient) (tx : String)
    (hj : jc.client.isSome = true) (hg : gh.client.isSome = true)
    (hk : kc.client.isSome = true) :
    JiraClient.get_sprint jc (.error (.jiraError 404 tx)) = .ok none
    ∧ GitHubClient.get_repo gh (.error (.githubException 404 tx)) = .ok none
    ∧ GitHubClient.get_content gh (.ok { full_name := "owner/repo" })
        (.error (.githubException 404 tx)) = .ok none
    ∧ JenkinsClient.request kc (.resp 404 tx) = .ok none
    ∧ JiraClient.get_sprint_tasks jc (.error (.jiraError 404 tx))
      = .error (.jiraError 404 tx)
    ∧ JiraClient.get_completed_sprints jc (.error (.jiraError 404 tx))
      = .error (.jiraError 404 tx) := by
  obtain ⟨jcc⟩ := jc
  obtain ⟨ghc⟩ := gh
  obtain ⟨kcc, kbu⟩ := kc
  cases jcc with
  | none => simp at hj
  | some jh =>
    cases ghc with
    | none => simp at hg
    | some gh2 =>
      cases kcc with
      | none => simp at hk
      | some kh => exact ⟨rfl, rfl, rfl, rfl, rfl, rfl⟩

/-- C7 witness: concrete configured façades with a remote answering 404:
the point lookups return `None`, the jira list operation raises. -/
theorem not_found_handling_amended_witness :
    JiraClient.get_sprint jiraConfigured (.error (.jiraError 404 "Not Found")) = .ok none
    ∧ GitHubClient.get_repo githubConfigured
        (.error (.githubException 404 "Not Found")) = .ok none
    ∧ JenkinsClient.request jenkinsConfigured (.resp 404 "Not Found") = .ok none
    ∧ JiraClient.get_sprint_tasks jiraConfigured (.error (.jiraError 404 "Not Found"))
      = .error (.jiraError 404 "Not Found") := by
  obtain ⟨a, b, -, d, e, -⟩ := not_found_handling_amended jiraConfigured
    githubConfigured jenkinsConfigured "Not Found" rfl rfl rfl
  exact ⟨a, b, d, e⟩

/-- C7 counterexample: a configured jira façade queried for sprint tasks
against a remote answering 404 raises the `JIRAError` instead of
returning the empty collection, refuting the universal claim. -/
theorem jira_sprint_tasks_404_raises_counterexample :
    JiraClient.get_sprint_tasks jiraConfigured (.error (.jiraError 404 "Not Found"))
      = .error (.jiraError 404 "Not Found")
    ∧ JiraClient.get_sprint_tasks jiraConfigured (.error (.jiraError 404 "Not Found"))
      ≠ .ok [] := by
  refine ⟨rfl, ?_⟩
  intro h
  exact Except.noConfusion h

/-- C8 (confirmed): for every façade state (enabled, disabled, already
closed), a second `close()` immediately after a first one leaves the
façade in the same state the first call produced and releases nothing
further; in the embedding every `close` is a total function — the jira
close catches every exception, the github close is a no-op, and the
jenkins close reaches the state-guarded `aclose` — so the second call
does not raise. -/
theorem close_idempotent (jc : JiraClient) (gh : GitHubClient) (kc : JenkinsClient) :
    (JiraClient.close (JiraClient.close jc).1).1 = (JiraClient.close jc).1
    ∧ (JiraClient.close (JiraClient.close jc).1).2 = false
    ∧ (GitHubClient.close (GitHubClient.close gh).1).1 = (GitHubClient.close gh).1
    ∧ (GitHubClient.close (GitHubClient.close gh).1).2 = false
    ∧ (JenkinsClient.close (JenkinsClient.close kc).1).1 = (JenkinsClient.close kc).1
    ∧ (JenkinsClient.close (JenkinsClient.close kc).1).2 = false := by
  obtain ⟨jcc⟩ := jc
  obtain ⟨ghc⟩ := gh
  obtain ⟨kcc, kbu⟩ := kc
  refine ⟨?_, ?_, rfl, rfl, ?_, ?_⟩
  · cases jcc with
    | none => rfl
    | some h => rfl
  · cases jcc with
    | none => rfl
    | some h => rfl
  · cases kcc with
    | none => rfl
    | some s => obtain ⟨b⟩ := s; cases b <;> rfl
  · cases kcc with
    | none => rfl
    | some s => obtain ⟨b⟩ := s; cases b <;> rfl

/-- C9 (confirmed): the cited handlers convert every internal failure
into a normal descriptive payload and never let an exception escape:
the sprint-tasks resource returns the error JSON object carrying
`str(e)` whenever its body raises (façade error or missing client), the
AI-insights tool returns the error string when sampling raises, and the
code-quality tool returns the error string for a failed content fetch;
each handler is a total, string-or-JSON-valued function. -/
theorem handlers_catch_internal_failures
    (jc : Option JiraClient) (remote : Except PyErr (List Issue)) (e e2 : PyErr)
    (context question path msg : String) (sample : SampleFn)
    (hbody : getSprintTasksResourceBody jc remote = .error e)
    (hsample : ∀ ms t mt, sample ms t mt = .error e2) :
    getSprintTasksResource jc remote = .errObj e.msg
    ∧ generate_ai_insights context question sample
      = "Error generating insights: " ++ e2.msg
    ∧ assess_code_quality path (.errObj msg)
      = "Error assessing code quality: " ++ msg := by
  refine ⟨?_, ?_, rfl⟩
  · simp [getSprintTasksResource, hbody]
  · simp [generate_ai_insights, hsample]

/-- C9 witness: a missing jira client makes the resource body raise
`AttributeError` and the handler returns the error JSON; an
always-raising sampler yields the error string; an error content payload
yields the error string. -/
theorem handlers_catch_internal_failures_witness :
    getSprintTasksResource none (.ok [])
      = .errObj "NoneType object has no attribute get_sprint_tasks"
    ∧ generate_ai_insights "ctx" "why" (fun _ _ _ => .error (.otherError "boom"))
      = "Error generating insights: boom"
    ∧ assess_code_quality "app.py" (.errObj "GitHub API error: BadCredentials")
      = "Error assessing code quality: GitHub API error: BadCredentials" :=
  handlers_catch_internal_failures none (.ok [])
    (.attributeError "NoneType object has no attribute get_sprint_tasks")
    (.otherError "boom") "ctx" "why" "app.py" "GitHub API error: BadCredentials"
    (fun _ _ _ => .error (.otherError "boom")) rfl (fun _ _ _ => rfl)

/-- C10 (confirmed): `generate_completion` selects the configured
defaults by Python truthiness: an explicit temperature of 0.0 or an
explicit max_tokens of 0 is replaced by the façade default, and a
caller-supplied value reaches the API only when it is truthy
(nonzero). -/
theorem groq_truthiness_override (gc : GroqClient) (msgs : List GroqMessage)
    (api : GroqApi) (t : Rat) (mt : Nat) :
    GroqClient.generate_completion gc msgs (some 0) (some 0) api
      = api gc.model msgs gc.temperature gc.max_tokens
    ∧ (t ≠ 0 → GroqClient.generate_completion gc msgs (some t) (some 0) api
      = api gc.model msgs t gc.max_tokens)
    ∧ (mt ≠ 0 → GroqClient.generate_completion gc msgs (some 0) (some mt) api
      = api gc.model msgs gc.temperature mt) := by
  refine ⟨?_, fun ht => ?_, fun hmt => ?_⟩
  · simp [GroqClient.generate_completion, pyOrRat, pyOrNat]
  · simp [GroqClient.generate_completion, pyOrRat, pyOrNat, ht]
  · simp [GroqClient.generate_completion, pyOrRat, pyOrNat, hmt]

/-- C10 witness: with explicit zero overrides the configured defaults
are used, and a nonzero temperature of 2 and max_tokens of 500 are
honored. -/
theorem groq_truthiness_override_witness :
    GroqClient.generate_completion groqConfigured [] (some 0) (some 0)
      (fun m _ _ _ => .ok m)
      = (fun m (_ : List GroqMessage) (_ : Rat) (_ : Nat) => Except.ok
          (ε := PyErr) m) groqConfigured.model [] groqConfigured.temperature
          groqConfigured.max_tokens
    ∧ GroqClient.generate_completion groqConfigured [] (some 2) (some 0)
      (fun m _ _ _ => .ok m)
      = (fun m (_ : List GroqMessage) (_ : Rat) (_ : Nat) => Except.ok
          (ε := PyErr) m) groqConfigured.model [] 2 groqConfigured.max_tokens
    ∧ GroqClient.generate_completion groqConfigured [] (some 0) (some 500)
      (fun m _ _ _ => .ok m)
      = (fun m (_ : List GroqMessage) (_ : Rat) (_ : Nat) => Except.ok
          (ε := PyErr) m) groqConfigured.model [] groqConfigured.temperature 500 := by
  obtain ⟨a, b, c⟩ := groq_truthiness_override groqConfigured []
    (fun m _ _ _ => .ok m) 2 500
  exact ⟨a, b (by decide), c (by decide)⟩
